import Mathlib

/-
Shallow embedding of the cross-isolate reference subsystem of this
repository (src/reference_handle.cc and src/shareable_persistent.h).

Isolates (`IsolateHolder` / `ShareableIsolate`) are identified by a bare
`Nat`: the source only ever compares the owning holder pointer against the
currently entered holder for identity, so an identifier is a faithful model.
RemoteHandle fields are modelled as `Option` (an empty handle is `none`).
Fallible operations return `Except JsError α`.
-/

/-- Identity of an execution environment (`IsolateHolder`); the source only
compares these pointers for identity. -/
abbrev IsolateId := Nat

/-- The cached type tag `detail::ReferenceData::TypeOf`. -/
inductive TypeOf where
  | Null | Undefined | Number | String | Boolean | Object | Function
deriving DecidableEq

/-- Transfer semantics carried by a `Transferable::Options` value. Modelled
from the spec: the options/codec layer (transferable.h, outside src/) is an
external collaborator whose options select copy vs reference semantics;
only the default value and equality with it are inspected by the code under
src/ (reference_handle.cc line 288). -/
inductive TransferKind where
  | auto | reference | copy
deriving DecidableEq

/-- A parsed transfer-options object; `{}` is `Transferable::Options{}`. -/
structure TransferOptions where
  kind : TransferKind := TransferKind.auto
deriving DecidableEq

/-- JavaScript values as far as this subsystem inspects them. Host objects
of the `Dereference` class (the return value of `derefInto()`) are values
too: `vDerefFull` is a live handle holding {owning isolate, remote value},
and `vDerefUsed` is the moved-from handle left behind once
`DereferenceHandle::TransferOut` has consumed the fields. -/
inductive Value where
  | vNull
  | vUndefined
  | vNumber (n : Int)
  | vString (s : String)
  | vBoolean (b : Bool)
  | vObject (id : Nat)
  | vError (msg : String)
  | vFunction (id : Nat)
  | vPromise (id : Nat)
  | vDerefFull (isolate : Option IsolateId) (reference : Value)
  | vDerefUsed
deriving DecidableEq

/-- The `InferTypeOf` chain of IsNull/IsUndefined/IsNumber/IsString/
IsBoolean/IsFunction tests, everything else classified as Object
(reference_handle.cc lines 16-32). -/
def InferTypeOf : Value → TypeOf
  | .vNull => .Null
  | .vUndefined => .Undefined
  | .vNumber _ => .Number
  | .vString _ => .String
  | .vBoolean _ => .Boolean
  | .vFunction _ => .Function
  | _ => .Object

/-- Primitive test backing `ExternalCopy::CopyIfPrimitive`. -/
def Value.isPrimitive : Value → Bool
  | .vNull | .vUndefined | .vNumber _ | .vString _ | .vBoolean _ => true
  | _ => false

/-- Error-shaped object test backing `ExternalCopy::CopyIfPrimitiveOrError`. -/
def Value.isErrorObject : Value → Bool
  | .vError _ => true
  | _ => false

/-- `value->IsFunction()`. -/
def Value.isFunction : Value → Bool
  | .vFunction _ => true
  | _ => false

/-- `value->IsPromise()`. -/
def Value.isPromise : Value → Bool
  | .vPromise _ => true
  | _ => false

/-- Errors raised by the subsystem: `js_type_error`, `js_generic_error`,
and `js_runtime_error` (a pending guest exception carrying the thrown
value, re-raised in the caller). -/
inductive JsError where
  | typeError (msg : String)
  | genericError (msg : String)
  | runtimeError (thrown : Value)
deriving DecidableEq

/-- `ExternalCopy::CopyIfPrimitive`: copies a primitive, null otherwise.
Modelled from the spec: the codec is an external collaborator exposing
"copy only if primitive" (spec section 6); copying a primitive preserves it. -/
def copyIfPrimitive (v : Value) : Option Value :=
  if v.isPrimitive then some v else none

/-- `ExternalCopy::CopyIfPrimitiveOrError`. Modelled from the spec: the
codec exposes "copy only if primitive / primitive-or-error-shaped"
(spec section 6). -/
def copyIfPrimitiveOrError (v : Value) : Option Value :=
  if v.isPrimitive || v.isErrorObject then some v else none

/-- A portable capsule (`Transferable`). `externalCopy` stands for the
external codec's capsules (modelled from the spec, section 4.2: a capsule
produced from a live value materializes that value in the destination);
`derefTransferable` is `DereferenceHandleTransferable` from src/. -/
inductive Transferable where
  | externalCopy (opts : TransferOptions) (v : Value)
  | derefTransferable (isolate : Option IsolateId) (reference : Value)
deriving DecidableEq

/-- `Transferable::TransferIn` in the destination isolate `cur`.
The `derefTransferable` case is `DereferenceHandleTransferable::TransferIn`
(reference_handle.cc lines 42-48): succeeds exactly when the destination is
the owning isolate, else raises a type error. -/
def Transferable.transferIn (t : Transferable) (cur : IsolateId) : Except JsError Value :=
  match t with
  | .externalCopy _ v => .ok v
  | .derefTransferable iso r =>
    if iso = some cur then .ok r
    else .error (.typeError "Cannot dereference this into target isolate")

/-- `Transferable::TransferOut(value, opts)`, returning the capsule and the
post-transfer state of the source value. A live `Dereference` handle
delegates to `DereferenceHandle::TransferOut` (reference_handle.cc lines
64-69): it moves its fields into the capsule, leaving the handle consumed; a
consumed handle raises the one-shot reuse error. Every other value goes to
the external codec (modelled from the spec, section 4.2) and is unchanged. -/
def transferOutValue (opts : TransferOptions) (v : Value) : Except JsError (Transferable × Value) :=
  match v with
  | .vDerefFull iso r => .ok (.derefTransferable iso r, .vDerefUsed)
  | .vDerefUsed => .error (.genericError "The return value of `derefInto()` should only be used once")
  | v' => .ok (.externalCopy opts v', v')

/-- Transferring a capsule value into isolate `dest`: transfer out in the
source, then transfer in at the destination. Returns the outcome and the
post-transfer state of the capsule. -/
def transferCapsule (capsule : Value) (dest : IsolateId) : Except JsError Value × Value :=
  match transferOutValue {} capsule with
  | .error e => (.error e, capsule)
  | .ok (t, c2) => (t.transferIn dest, c2)

/-- The state of a `ReferenceHandle` (`detail::ReferenceData`): owning
isolate, remote value handle, remote context handle, cached type tag.
`release()` clears the first three; `CheckDisposed` tests the value handle. -/
structure ReferenceHandle where
  isolate : Option IsolateId
  reference : Option Value
  context : Option Nat
  type_of : TypeOf
deriving DecidableEq

/-- `ReferenceData`'s capture constructor: records the currently entered
isolate, the live value, the current context and the type tag computed once
(reference_handle.cc lines 80-84). -/
def ReferenceHandle.make (cur : IsolateId) (ctx : Nat) (value : Value) : ReferenceHandle :=
  { isolate := some cur, reference := some value, context := some ctx,
    type_of := InferTypeOf value }

/-- The field state after `Release()`: isolate, reference and context are
cleared; the cached tag member is not touched. -/
def ReferenceHandle.clear (r : ReferenceHandle) : ReferenceHandle :=
  { isolate := none, reference := none, context := none, type_of := r.type_of }

/-- `ReferenceHandle::TypeOfGetter` (lines 134-153): check disposed, then
map the cached tag to its name. -/
def typeOfString : TypeOf → String
  | .Null => "null"
  | .Undefined => "undefined"
  | .Number => "number"
  | .String => "string"
  | .Boolean => "boolean"
  | .Object => "object"
  | .Function => "function"

/-- The typeof accessor: `CheckDisposed()` then the cached tag's name. -/
def ReferenceHandle.typeOfGetter (r : ReferenceHandle) : Except JsError String :=
  match r.reference with
  | none => .error (.genericError "Reference has been released")
  | some _ => .ok (typeOfString r.type_of)

/-- Options accepted by `deref`/`derefInto` (`IsOptionSet(..., "release")`). -/
structure DerefOptions where
  release : Bool := false
deriving DecidableEq

/-- Reading the release flag from a maybe-absent options object. -/
def readRelease : Option DerefOptions → Bool
  | none => false
  | some o => o.release

/-- `ReferenceHandle::Deref` (lines 158-173): check disposed; require the
caller's current isolate to be the owning isolate; produce the live value;
optionally release afterwards. Returns the value and the updated handle. -/
def ReferenceHandle.deref (r : ReferenceHandle) (cur : IsolateId) (options : Option DerefOptions) :
    Except JsError (Value × ReferenceHandle) :=
  match r.reference with
  | none => .error (.genericError "Reference has been released")
  | some v =>
    if r.isolate = some cur then
      if readRelease options then .ok (v, r.clear) else .ok (v, r)
    else .error (.typeError "Cannot dereference this from current isolate")

/-- `ReferenceHandle::DerefInto` (lines 178-190): check disposed; build a
`Dereference` handle copying {owning isolate, remote value}; optionally
release the source afterwards. -/
def ReferenceHandle.derefInto (r : ReferenceHandle) (options : Option DerefOptions) :
    Except JsError (Value × ReferenceHandle) :=
  match r.reference with
  | none => .error (.genericError "Reference has been released")
  | some v =>
    if readRelease options then .ok (Value.vDerefFull r.isolate v, r.clear)
    else .ok (Value.vDerefFull r.isolate v, r)

/-- `ReferenceHandle::Release` (lines 195-201): check disposed, then clear
isolate, reference and context; returns undefined. -/
def ReferenceHandle.release (r : ReferenceHandle) : Except JsError (Value × ReferenceHandle) :=
  match r.reference with
  | none => .error (.genericError "Reference has been released")
  | some _ => .ok (.vUndefined, r.clear)

/-- A remote object's own properties, as an ordered association list of
{copied-in primitive key, value}. -/
abbrev Obj := List (Value × Value)

/-- `object->Delete(context, key)`: removes the own property at the key. -/
def objDelete (o : Obj) (k : Value) : Obj :=
  match o with
  | [] => []
  | p :: rest => if p.1 = k then objDelete rest k else p :: objDelete rest k

/-- `object->Get(context, key)`: the own property's value, if present. -/
def objGet (o : Obj) (k : Value) : Option Value :=
  match o with
  | [] => none
  | p :: rest => if p.1 = k then some p.2 else objGet rest k

/-- `object->Set(context, key, value)` on an ordinary object: the binding is
replaced and the engine reports success. The engine call itself is external
to this subsystem; only the returned boolean flows back through phase 3. -/
def objSet (o : Obj) (k v : Value) : Obj × Bool :=
  ((k, v) :: objDelete o k, true)

/-- Captured state of a `SetRunner` after its phase-1 constructor. -/
structure SetRunnerState where
  key : Value
  val : Transferable
  context : Option Nat
  reference : Value
deriving DecidableEq

/-- `SetRunner`'s constructor (reference_handle.cc lines 507-521). The
member initializers run first, in declaration order: the key is copied if
primitive, then the value is transferred out (which can throw, e.g. for a
consumed `derefInto()` capsule); only then does the body run
`CheckDisposed()` and the invalid-key check. -/
def setRunnerPhase1 (r : ReferenceHandle) (keyHandle valHandle : Value) (opts : TransferOptions) :
    Except JsError SetRunnerState :=
  let keyCopy := copyIfPrimitive keyHandle
  match transferOutValue opts valHandle with
  | .error e => .error e
  | .ok (val, _) =>
    match r.reference with
    | none => .error (.genericError "Reference has been released")
    | some rv =>
      match keyCopy with
      | none => .error (.typeError "Invalid `key`")
      | some k => .ok { key := k, val := val, context := r.context, reference := rv }

/-- `SetRunner::Phase2` (lines 523-532): copy the key in, delete the
existing property first, then transfer the value in and set it, recording
the boolean the underlying set returns. Returns the updated object and the
outcome. -/
def setRunnerPhase2 (st : SetRunnerState) (cur : IsolateId) (obj : Obj) :
    Obj × Except JsError Bool :=
  let o1 := objDelete obj st.key
  match st.val.transferIn cur with
  | .error e => (o1, .error e)
  | .ok v =>
    let p := objSet o1 st.key v
    (p.1, .ok p.2)

/-- Captured state of a `GetRunner` after its phase-1 constructor. -/
structure GetRunnerState where
  key : Value
  context : Option Nat
  reference : Value
  options : TransferOptions
deriving DecidableEq

/-- `GetRunner`'s constructor (lines 462-475): `CheckDisposed()` runs in the
body before the key is copied and validated. -/
def getRunnerPhase1 (r : ReferenceHandle) (keyHandle : Value) (opts : TransferOptions) :
    Except JsError GetRunnerState :=
  match r.reference with
  | none => .error (.genericError "Reference has been released")
  | some rv =>
    match copyIfPrimitive keyHandle with
    | none => .error (.typeError "Invalid `key`")
    | some k => .ok { key := k, context := r.context, reference := rv, options := opts }

/-- Captured state of a `CopyRunner` after its phase-1 constructor. -/
structure CopyRunnerState where
  context : Option Nat
  reference : Value
deriving DecidableEq

/-- `CopyRunner`'s constructor (lines 428-434): only `CheckDisposed()`. -/
def copyRunnerPhase1 (r : ReferenceHandle) : Except JsError CopyRunnerState :=
  match r.reference with
  | none => .error (.genericError "Reference has been released")
  | some rv => .ok { context := r.context, reference := rv }

/-- Captured state of an `ApplyRunner` (lines 406-416). `didFinish` is the
shared completion flag (`shared_ptr<bool>`): `none` before a promise wait is
installed, `some b` once allocated with current contents `b`. `asyncError`
holds the external copy of a stored rejection/error. -/
structure ApplyRunnerState where
  argv : List Transferable
  context : Option Nat
  reference : Value
  recv : Option Transferable
  ret : Option Transferable
  timeout : Nat
  didFinish : Option Bool
  returnOptions : TransferOptions
  asyncError : Option Value
deriving DecidableEq

/-- Dense-index test on the arguments collection's own property names,
each name abstracted to its `ToArrayIndex` result (`some i` for an array
index, `none` for a non-index name). -/
def denseFrom : List (Option Nat) → Nat → Bool
  | [], _ => true
  | k :: rest, ii => if k = some ii then denseFrom rest (ii + 1) else false

/-- The argument-externalization loop of `ApplyRunner`'s constructor
(lines 254-265): walk the own property names in order; name `ii` must be the
array index `ii` or the whole collection is rejected with the type error;
each accepted argument is transferred out immediately, under the
`arguments` transfer options, before the next name is examined. Modelled
from the spec for the non-index case: the array-index conversion helper
(`Unmaybe`/`ToArrayIndex`, outside src/) fails the dense-index validation
with a type error for a non-index own name (spec sections 4.1 and 7). -/
def externalizeArguments (opts : TransferOptions) :
    List (Option Nat × Value) → Nat → Except JsError (List Transferable)
  | [], _ => .ok []
  | (key, v) :: rest, ii =>
    if key = some ii then
      match transferOutValue opts v with
      | .error e => .error e
      | .ok (t, _) => (externalizeArguments opts rest (ii + 1)).map (fun ts => t :: ts)
    else .error (.typeError "Invalid `arguments` array")

/-- `ApplyRunner`'s constructor (lines 208-266): `CheckDisposed()` first,
then the receiver is transferred out (default options), then the options
are read (timeout, `arguments` and `return` transfer options — the
option-object property extraction is binding glue, so the already-parsed
values are taken as inputs here), then the arguments are externalized. -/
def applyPhase1 (r : ReferenceHandle) (recvIn : Option Value)
    (args : Option (List (Option Nat × Value))) (timeout : Nat)
    (argOpts retOpts : TransferOptions) : Except JsError ApplyRunnerState :=
  match r.reference with
  | none => .error (.genericError "Reference has been released")
  | some fnv =>
    match (match recvIn with
           | none => Except.ok Option.none
           | some v => (transferOutValue {} v).map (fun (p : Transferable × Value) => some p.1)) with
    | .error e => .error e
    | .ok recv =>
      match externalizeArguments argOpts (args.getD []) 0 with
      | .error e => .error e
      | .ok argv =>
        .ok { argv := argv, context := r.context, reference := fnv, recv := recv,
              ret := none, timeout := timeout, didFinish := none,
              returnOptions := retOpts, asyncError := none }

/-- Transferring a captured argument list into the target isolate
(`ApplyRunner::TransferArguments`, lines 396-404). -/
def transferInList (ts : List Transferable) (cur : IsolateId) : Except JsError (List Value) :=
  match ts with
  | [] => .ok []
  | t :: rest =>
    match t.transferIn cur with
    | .error e => .error e
    | .ok v => (transferInList rest cur).map (fun vs => v :: vs)

/-- `ApplyRunner::Phase2Async` (lines 286-322): reject any non-default
`return` options first; require the remote value to be callable; transfer
the receiver and arguments in; run the call under the deadline runner (the
call's outcome in the target isolate is the `callOutcome` input — a timeout
or guest exception arrives as its error). A promise result installs the
settlement callback, allocates the shared completion flag at false and
reports suspension (`true`); any other result is transferred out as the
stored outcome and reports completion (`false`). -/
def applyPhase2Async (st : ApplyRunnerState) (cur : IsolateId)
    (callOutcome : Except JsError Value) : Except JsError (Bool × ApplyRunnerState) :=
  if st.returnOptions ≠ {} then
    .error (.typeError "`return` options are not available for `applySyncPromise`")
  else if !st.reference.isFunction then
    .error (.typeError "Reference is not a function")
  else
    match (match st.recv with
           | some t => t.transferIn cur
           | none => Except.ok Value.vUndefined) with
    | .error e => .error e
    | .ok _ =>
      match transferInList st.argv cur with
      | .error e => .error e
      | .ok _ =>
        match callOutcome with
        | .error e => .error e
        | .ok value =>
          if value.isPromise then .ok (true, { st with didFinish := some false })
          else
            match transferOutValue st.returnOptions value with
            | .error e => .error e
            | .ok (t, _) => .ok (false, { st with ret := some t })

/-- `ApplyRunner::Phase3` (lines 324-334): if the completion flag exists and
is still false, the wait ended by deadline — set the flag and raise the
timeout error; otherwise re-raise a stored error, or transfer the stored
result in. Returns the outcome and the updated runner state. -/
def applyPhase3 (st : ApplyRunnerState) (cur : IsolateId) :
    Except JsError Value × ApplyRunnerState :=
  match st.didFinish with
  | some false => (.error (.genericError "Script execution timed out."), { st with didFinish := some true })
  | _ =>
    match st.asyncError with
    | some e => (.error (.runtimeError e), st)
    | none =>
      match st.ret with
      | some t => (t.transferIn cur, st)
      | none => (.ok Value.vUndefined, st)

/-- A settlement of the awaited promise, as delivered to
`ApplyRunner::AsyncCallback` by the compiled wrapper: three arguments for a
resolution, four for a rejection. -/
inductive Settlement where
  | resolved (v : Value)
  | rejected (e : Value)

/-- The synthetic error stored when a rejection value is neither primitive
nor error-shaped (reference_handle.cc lines 358-363). -/
def rejectionToError (e : Value) : Value :=
  (copyIfPrimitiveOrError e).getD
    (.vError "An object was thrown from supplied code within isolated-vm, but that object was not an instance of `Error`.")

/-- `ApplyRunner::AsyncCallback` (lines 341-367): if the shared flag is
already set the invocation timed out and the settlement is dropped (no wake,
nothing stored). Otherwise a resolution transfers the value out into the
stored result (a transfer failure is captured as the stored error), a
rejection stores the copied (or wrapped) rejection value; in both cases the
flag is set and the waiter woken. Returns the updated state and whether the
waiter was woken. -/
def asyncCallback (st : ApplyRunnerState) (s : Settlement) : ApplyRunnerState × Bool :=
  match st.didFinish with
  | some true => (st, false)
  | _ =>
    match s with
    | .resolved v =>
      match transferOutValue {} v with
      | .ok (t, _) => ({ st with ret := some t, didFinish := some true }, true)
      | .error e =>
        ({ st with asyncError := some (match e with
            | .typeError m => .vError m
            | .genericError m => .vError m
            | .runtimeError thrown => thrown), didFinish := some true }, true)
    | .rejected e =>
      ({ st with asyncError := some (rejectionToError e), didFinish := some true }, true)

/-- Events observable during disposal of a `ShareablePersistent`
(shareable_persistent.h lines 26-43): the optional disposer callback `D`
running with the isolate pointer it was handed, the persistent being
`Reset`, and the persistent being freed. -/
inductive DisposeEvent where
  | disposerRun (env : Option IsolateId)
  | handleReset
  | handleFreed
deriving DecidableEq

/-- The body of the disposal task scheduled onto the owning isolate's queue:
the disposer (when present) runs with the live isolate pointer, then the
slot is reset and freed. -/
def disposalTask (hasDisposer : Bool) (iso : IsolateId) : List DisposeEvent :=
  (if hasDisposer then [DisposeEvent.disposerRun (some iso)] else [])
    ++ [DisposeEvent.handleReset, DisposeEvent.handleFreed]

/-- The fallback path when the isolate is already torn down: the disposer
(when present) runs immediately with a null isolate pointer and the slot is
freed on the releasing thread. -/
def fallbackDisposal (hasDisposer : Bool) : List DisposeEvent :=
  (if hasDisposer then [DisposeEvent.disposerRun none] else [])
    ++ [DisposeEvent.handleFreed]

/-- Outcome of `~ShareablePersistent`: the events performed immediately on
the releasing thread, and the task (if any) that was scheduled onto the
owning isolate's queue. -/
structure DtorOutcome where
  immediate : List DisposeEvent
  scheduled : Option (List DisposeEvent)
deriving DecidableEq

/-- `~ShareablePersistent()` (shareable_persistent.h lines 26-43): try to
schedule the disposal task on the owning isolate's queue, passing ownership
of the slot into it; if scheduling fails because the isolate is gone, run
the fallback disposal immediately. Whether `ScheduleHandleTask` succeeds is
decided by the external isolate/scheduler layer, so it is a Boolean input. -/
def shareablePersistentDtor (hasDisposer : Bool) (scheduleOk : Bool) (iso : IsolateId) : DtorOutcome :=
  if scheduleOk then { immediate := [], scheduled := some (disposalTask hasDisposer iso) }
  else { immediate := fallbackDisposal hasDisposer, scheduled := none }

/-- Counts the slot-free events of a disposal trace. -/
def countFreed : List DisposeEvent → Nat
  | [] => 0
  | DisposeEvent.handleFreed :: rest => countFreed rest + 1
  | _ :: rest => countFreed rest

/-- Deleting a key removes every binding of it. -/
theorem objGet_objDelete (o : Obj) (k : Value) : objGet (objDelete o k) k = none := by
  induction o with
  | nil => rfl
  | cons p rest ih =>
    by_cases hp : p.1 = k
    · simp [objDelete, hp, ih]
    · simp [objDelete, objGet, hp, ih]

/-- Transfer-out succeeds on every value except a consumed capsule. -/
theorem transferOutValue_isOk (opts : TransferOptions) (v : Value) (hv : v ≠ Value.vDerefUsed) :
    ∃ t v2, transferOutValue opts v = .ok (t, v2) := by
  cases v <;> simp [transferOutValue] at hv ⊢

/-- A successful externalization implies the names were a dense index run
starting at `ii`, and yields exactly the in-order transfers. -/
theorem externalizeArguments_ok (opts : TransferOptions) :
    ∀ (args : List (Option Nat × Value)) (ii : Nat) (ts : List Transferable),
      externalizeArguments opts args ii = .ok ts →
      denseFrom (args.map (fun p => p.1)) ii = true ∧ ts.length = args.length ∧
      ∀ j (hj : j < args.length) (ht : j < ts.length),
        ∃ v2, transferOutValue opts (args.get ⟨j, hj⟩).2 = .ok (ts.get ⟨j, ht⟩, v2) := by
  intro args
  induction args with
  | nil =>
    intro ii ts h
    simp [externalizeArguments] at h
    subst h
    refine ⟨rfl, rfl, ?_⟩
    intro j hj
    exact absurd hj (by simp)
  | cons p rest ih =>
    intro ii ts h
    obtain ⟨key, v⟩ := p
    by_cases hk : key = some ii
    · subst hk
      rw [externalizeArguments, if_pos rfl] at h
      cases htr : transferOutValue opts v with
      | error e => rw [htr] at h; exact absurd h (by simp)
      | ok tv =>
        obtain ⟨t, v2⟩ := tv
        rw [htr] at h
        cases hrest : externalizeArguments opts rest (ii + 1) with
        | error e => rw [hrest] at h; exact absurd h (by simp [Except.map])
        | ok ts2 =>
          rw [hrest] at h
          simp [Except.map] at h
          subst h
          obtain ⟨hd, hl, hp⟩ := ih (ii + 1) ts2 hrest
          refine ⟨by simp [denseFrom, hd], by simp [hl], ?_⟩
          intro j hj ht
          cases j with
          | zero => exact ⟨v2, by simpa using htr⟩
          | succ j2 =>
            simp only [List.length_cons, Nat.succ_lt_succ_iff] at hj ht
            simpa using hp j2 hj ht
    · rw [externalizeArguments, if_neg hk] at h
      exact absurd h (by simp)

/-- When every argument's transfer-out succeeds, a non-dense name list is
rejected with the type error. -/
theorem externalizeArguments_not_dense (opts : TransferOptions) :
    ∀ (args : List (Option Nat × Value)) (ii : Nat),
      (∀ p ∈ args, p.2 ≠ Value.vDerefUsed) →
      denseFrom (args.map (fun p => p.1)) ii = false →
      externalizeArguments opts args ii = .error (.typeError "Invalid `arguments` array") := by
  intro args
  induction args with
  | nil => intro ii _ hd; simp [denseFrom] at hd
  | cons p rest ih =>
    intro ii hall hd
    obtain ⟨key, v⟩ := p
    by_cases hk : key = some ii
    · subst hk
      have hdr : denseFrom (rest.map (fun p => p.1)) (ii + 1) = false := by
        simpa [denseFrom] using hd
      obtain ⟨t, v2, htr⟩ :=
        transferOutValue_isOk opts v (hall (some ii, v) (List.mem_cons_self _ _))
      rw [externalizeArguments, if_pos rfl, htr,
        ih (ii + 1) (fun q hq => hall q (List.mem_cons_of_mem _ hq)) hdr]
      rfl
    · rw [externalizeArguments, if_neg hk]

/-- C1 (amended): after release() succeeds, every subsequent public
operation fails with the disposed-reference generic error "Reference has
been released" — typeof, deref, derefInto, release, the copy/get/apply
phase-1 constructors shared by their sync, async and ignored variants, and
the set phase-1 constructor for every value whose transfer-out succeeds.
(Set's member initializers transfer the value out before the disposed
check runs, so a failing value transfer raises its own error instead; see
the counterexample.) -/
theorem released_reference_operations_fail (r r2 : ReferenceHandle) (u : Value)
    (h : r.release = .ok (u, r2)) :
    r2.typeOfGetter = .error (.genericError "Reference has been released")
    ∧ (∀ cur opts, r2.deref cur opts = .error (.genericError "Reference has been released"))
    ∧ (∀ opts, r2.derefInto opts = .error (.genericError "Reference has been released"))
    ∧ r2.release = .error (.genericError "Reference has been released")
    ∧ copyRunnerPhase1 r2 = .error (.genericError "Reference has been released")
    ∧ (∀ kh opts, getRunnerPhase1 r2 kh opts = .error (.genericError "Reference has been released"))
    ∧ (∀ kh vh opts t v2, transferOutValue opts vh = .ok (t, v2) →
        setRunnerPhase1 r2 kh vh opts = .error (.genericError "Reference has been released"))
    ∧ (∀ recvIn args timeout argOpts retOpts,
        applyPhase1 r2 recvIn args timeout argOpts retOpts
          = .error (.genericError "Reference has been released")) := by
  have hr2 : r2.reference = none := by
    unfold ReferenceHandle.release at h
    cases hr : r.reference with
    | none => rw [hr] at h; exact absurd h (by simp)
    | some v =>
      rw [hr] at h
      simp only [Except.ok.injEq, Prod.mk.injEq] at h
      rw [← h.2]
      rfl
  refine ⟨?_, ?_, ?_, ?_, ?_, ?_, ?_, ?_⟩
  · simp [ReferenceHandle.typeOfGetter, hr2]
  · intro cur opts; simp [ReferenceHandle.deref, hr2]
  · intro opts; simp [ReferenceHandle.derefInto, hr2]
  · simp [ReferenceHandle.release, hr2]
  · simp [copyRunnerPhase1, hr2]
  · intro kh opts; simp [getRunnerPhase1, hr2]
  · intro kh vh opts t v2 htr; simp [setRunnerPhase1, htr, hr2]
  · intro recvIn args timeout argOpts retOpts; simp [applyPhase1, hr2]

/-- C1 witness: a concrete released reference; typeof on it raises the
disposed error. -/
theorem released_reference_operations_fail_witness :
    (ReferenceHandle.make 0 1 (.vNumber 7)).release
      = .ok (.vUndefined, (ReferenceHandle.make 0 1 (.vNumber 7)).clear)
    ∧ (ReferenceHandle.make 0 1 (.vNumber 7)).clear.typeOfGetter
      = .error (.genericError "Reference has been released") :=
  ⟨rfl, (released_reference_operations_fail (ReferenceHandle.make 0 1 (.vNumber 7))
    ((ReferenceHandle.make 0 1 (.vNumber 7)).clear) .vUndefined rfl).1⟩

/-- C1 counterexample: on a released reference, set with a value whose
transfer-out fails (here an already-consumed derefInto capsule) raises the
one-shot reuse error during phase-1 member initialization, before the
disposed check runs — not the disposed-reference error the claim requires
for every operation. -/
theorem released_reference_set_counterexample :
    (ReferenceHandle.make 0 1 (.vNumber 7)).release
      = .ok (.vUndefined, (ReferenceHandle.make 0 1 (.vNumber 7)).clear)
    ∧ setRunnerPhase1 ((ReferenceHandle.make 0 1 (.vNumber 7)).clear)
        (.vString "k") .vDerefUsed {}
      = .error (.genericError "The return value of `derefInto()` should only be used once")
    ∧ JsError.genericError "The return value of `derefInto()` should only be used once"
      ≠ JsError.genericError "Reference has been released" :=
  ⟨rfl, rfl, by decide⟩

/-- C4: deref on a non-disposed Reference returns the exact live remote
value when the caller's current isolate is the owning isolate, and fails
with the environment-mismatch type error (producing no value) from any
other isolate. -/
theorem deref_requires_owning_isolate (r : ReferenceHandle) (v : Value)
    (i cur : IsolateId) (opts : Option DerefOptions)
    (hv : r.reference = some v) (hi : r.isolate = some i) :
    (cur = i → ∃ r2, r.deref cur opts = .ok (v, r2))
    ∧ (cur ≠ i →
        r.deref cur opts = .error (.typeError "Cannot dereference this from current isolate")) := by
  constructor
  · intro hcur
    subst hcur
    by_cases hrel : readRelease opts
    · exact ⟨r.clear, by simp [ReferenceHandle.deref, hv, hi, hrel]⟩
    · exact ⟨r, by simp [ReferenceHandle.deref, hv, hi, hrel]⟩
  · intro hcur
    have : ¬ (r.isolate = some cur) := by
      rw [hi]
      intro hc
      exact hcur (by injection hc with h2; exact h2.symm) 
    simp [ReferenceHandle.deref, hv, this]

/-- C4 witness: deref at the owning isolate returns the live value; from a
different isolate it raises the type error. -/
theorem deref_requires_owning_isolate_witness :
    (∃ r2, (ReferenceHandle.make 4 1 (.vBoolean true)).deref 4 none = .ok (.vBoolean true, r2))
    ∧ (ReferenceHandle.make 4 1 (.vBoolean true)).deref 5 none
      = .error (.typeError "Cannot dereference this from current isolate") :=
  ⟨(deref_requires_owning_isolate (ReferenceHandle.make 4 1 (.vBoolean true))
      (.vBoolean true) 4 4 none rfl rfl).1 rfl,
   (deref_requires_owning_isolate (ReferenceHandle.make 4 1 (.vBoolean true))
      (.vBoolean true) 4 5 none rfl rfl).2 (by decide)⟩

/-- C3: the capsule produced by derefInto() on a non-disposed Reference can
be materialized at most once: the first transfer succeeds at the owning
isolate (and consumes the capsule even when the owning-environment check
fails at another destination), and any second transfer of the same capsule
fails with the one-shot generic error, raised when the consumed capsule is
transferred again. -/
theorem derefInto_capsule_single_use (r : ReferenceHandle) (v : Value)
    (i d d2 : IsolateId) (hv : r.reference = some v) (hi : r.isolate = some i) :
    r.derefInto none = .ok (Value.vDerefFull (some i) v, r)
    ∧ transferCapsule (Value.vDerefFull (some i) v) i = (.ok v, .vDerefUsed)
    ∧ (d ≠ i →
        transferCapsule (Value.vDerefFull (some i) v) d
          = (.error (.typeError "Cannot dereference this into target isolate"), .vDerefUsed))
    ∧ transferCapsule Value.vDerefUsed d2
        = (.error (.genericError "The return value of `derefInto()` should only be used once"),
           Value.vDerefUsed) := by
  refine ⟨by simp [ReferenceHandle.derefInto, hv, hi, readRelease], ?_, ?_, rfl⟩
  · simp [transferCapsule, transferOutValue, Transferable.transferIn]
  · intro hd
    have : ¬ ((some i : Option IsolateId) = some d) := by
      intro hc
      exact hd (by injection hc with h2; exact h2.symm)
    simp [transferCapsule, transferOutValue, Transferable.transferIn, this]

/-- C3 witness: a concrete capsule materializes once and only once. -/
theorem derefInto_capsule_single_use_witness :
    transferCapsule (Value.vDerefFull (some 2) (.vString "live")) 2
      = (.ok (.vString "live"), .vDerefUsed)
    ∧ transferCapsule Value.vDerefUsed 2
      = (.error (.genericError "The return value of `derefInto()` should only be used once"),
         Value.vDerefUsed) :=
  ⟨(derefInto_capsule_single_use (ReferenceHandle.make 2 0 (.vString "live"))
      (.vString "live") 2 0 2 rfl rfl).2.1,
   (derefInto_capsule_single_use (ReferenceHandle.make 2 0 (.vString "live"))
      (.vString "live") 2 0 2 rfl rfl).2.2.2⟩

/-- C5: a fresh derefInto() capsule materializes in a destination isolate
if and only if that destination is the owning isolate; any other
destination fails with the type error. -/
theorem derefInto_capsule_owning_destination (r : ReferenceHandle) (v : Value)
    (i d : IsolateId) (hv : r.reference = some v) (hi : r.isolate = some i) :
    r.derefInto none = .ok (Value.vDerefFull (some i) v, r)
    ∧ ((transferCapsule (Value.vDerefFull (some i) v) d).1 = .ok v ↔ d = i)
    ∧ (d ≠ i →
        (transferCapsule (Value.vDerefFull (some i) v) d).1
          = .error (.typeError "Cannot dereference this into target isolate")) := by
  have hne : ∀ dd : IsolateId, dd ≠ i → ¬ ((some i : Option IsolateId) = some dd) := by
    intro dd hdd hc
    exact hdd (by injection hc with h2; exact h2.symm)
  refine ⟨by simp [ReferenceHandle.derefInto, hv, hi, readRelease], ?_, ?_⟩
  · constructor
    · intro hok
      by_contra hd
      rw [show (transferCapsule (Value.vDerefFull (some i) v) d).1
          = .error (.typeError "Cannot dereference this into target isolate") by
        simp [transferCapsule, transferOutValue, Transferable.transferIn, hne d hd]] at hok
      exact absurd hok (by simp)
    · intro hd
      subst hd
      simp [transferCapsule, transferOutValue, Transferable.transferIn]
  · intro hd
    simp [transferCapsule, transferOutValue, Transferable.transferIn, hne d hd]

/-- C5 witness: materialization succeeds at the owning isolate and fails
with the type error elsewhere. -/
theorem derefInto_capsule_owning_destination_witness :
    ((transferCapsule (Value.vDerefFull (some 6) (.vNumber 1)) 6).1 = .ok (.vNumber 1) ↔ (6 : IsolateId) = 6)
    ∧ (transferCapsule (Value.vDerefFull (some 6) (.vNumber 1)) 7).1
      = .error (.typeError "Cannot dereference this into target isolate") :=
  ⟨(derefInto_capsule_owning_destination (ReferenceHandle.make 6 0 (.vNumber 1))
      (.vNumber 1) 6 6 rfl rfl).2.1,
   (derefInto_capsule_owning_destination (ReferenceHandle.make 6 0 (.vNumber 1))
      (.vNumber 1) 6 7 rfl rfl).2.2 (by decide)⟩

/-- C9: with options.release set, deref returns the live value and
derefInto returns the capsule with the Reference released immediately — the
capsule is produced from the pre-release fields and still materializes at
the owning isolate afterwards, so release happens before the capsule is
consumed; with the option absent or unset, both operations leave the
Reference's isolate, value handle, context handle and type tag unchanged. -/
theorem deref_release_option (r : ReferenceHandle) (v : Value) (i : IsolateId)
    (hv : r.reference = some v) (hi : r.isolate = some i) :
    r.deref i (some { release := true }) = .ok (v, r.clear)
    ∧ r.derefInto (some { release := true }) = .ok (Value.vDerefFull (some i) v, r.clear)
    ∧ transferCapsule (Value.vDerefFull (some i) v) i = (.ok v, .vDerefUsed)
    ∧ (r.clear.isolate = none ∧ r.clear.reference = none ∧ r.clear.context = none
        ∧ r.clear.type_of = r.type_of)
    ∧ r.deref i none = .ok (v, r)
    ∧ r.deref i (some { release := false }) = .ok (v, r)
    ∧ r.derefInto none = .ok (Value.vDerefFull (some i) v, r)
    ∧ r.derefInto (some { release := false }) = .ok (Value.vDerefFull (some i) v, r) := by
  refine ⟨?_, ?_, ?_, ⟨rfl, rfl, rfl, rfl⟩, ?_, ?_, ?_, ?_⟩
  · simp [ReferenceHandle.deref, hv, hi, readRelease]
  · simp [ReferenceHandle.derefInto, hv, hi, readRelease]
  · simp [transferCapsule, transferOutValue, Transferable.transferIn]
  · simp [ReferenceHandle.deref, hv, hi, readRelease]
  · simp [ReferenceHandle.deref, hv, hi, readRelease]
  · simp [ReferenceHandle.derefInto, hv, hi, readRelease]
  · simp [ReferenceHandle.derefInto, hv, hi, readRelease]

/-- C9 witness: a concrete Reference is cleared by the release option and
untouched without it. -/
theorem deref_release_option_witness :
    (ReferenceHandle.make 3 9 (.vNumber 5)).deref 3 (some { release := true })
      = .ok (.vNumber 5, (ReferenceHandle.make 3 9 (.vNumber 5)).clear)
    ∧ (ReferenceHandle.make 3 9 (.vNumber 5)).deref 3 none
      = .ok (.vNumber 5, ReferenceHandle.make 3 9 (.vNumber 5)) :=
  ⟨(deref_release_option (ReferenceHandle.make 3 9 (.vNumber 5)) (.vNumber 5) 3 rfl rfl).1,
   (deref_release_option (ReferenceHandle.make 3 9 (.vNumber 5)) (.vNumber 5) 3 rfl rfl).2.2.2.2.1⟩

/-- C6: for a set on a non-disposed Reference, phase 1 captures the copied
key and the transferred-out value, and phase 2 first deletes any existing
property at the key, then transfers the value in and sets the property; the
operation's result is exactly the boolean returned by the underlying set,
and since the delete precedes the transfer, even a failing transfer leaves
the old binding removed. -/
theorem set_deletes_before_setting (r : ReferenceHandle) (kh vh : Value)
    (opts : TransferOptions) (st : SetRunnerState) (cur : IsolateId) (obj : Obj)
    (h1 : setRunnerPhase1 r kh vh opts = .ok st) :
    (copyIfPrimitive kh = some st.key
      ∧ (∃ v2, transferOutValue opts vh = .ok (st.val, v2))
      ∧ r.reference = some st.reference)
    ∧ (∀ v, st.val.transferIn cur = .ok v →
      setRunnerPhase2 st cur obj
        = ((objSet (objDelete obj st.key) st.key v).1,
           .ok (objSet (objDelete obj st.key) st.key v).2)
      ∧ objGet (setRunnerPhase2 st cur obj).1 st.key = some v)
    ∧ (∀ e, st.val.transferIn cur = .error e →
        setRunnerPhase2 st cur obj = (objDelete obj st.key, .error e))
    ∧ objGet (objDelete obj st.key) st.key = none := by
  refine ⟨?_, ?_, ?_, objGet_objDelete obj st.key⟩
  · simp only [setRunnerPhase1] at h1
    cases htr : transferOutValue opts vh with
    | error e => rw [htr] at h1; exact absurd h1 (by simp)
    | ok p =>
      obtain ⟨val, v2⟩ := p
      rw [htr] at h1
      cases hr : r.reference with
      | none => rw [hr] at h1; exact absurd h1 (by simp)
      | some rv =>
        rw [hr] at h1
        cases hkk : copyIfPrimitive kh with
        | none => rw [hkk] at h1; exact absurd h1 (by simp)
        | some k =>
          rw [hkk] at h1
          simp only [Except.ok.injEq] at h1
          subst h1
          exact ⟨rfl, ⟨v2, rfl⟩, rfl⟩
  · intro v hv
    constructor
    · simp [setRunnerPhase2, hv, objSet]
    · simp [setRunnerPhase2, hv, objSet, objGet]
  · intro e he
    simp [setRunnerPhase2, he]

/-- C6 witness: a concrete set replaces the old binding and reports the
underlying boolean; a following get sees the new value. -/
theorem set_deletes_before_setting_witness :
    setRunnerPhase2 { key := .vString "x", val := .externalCopy {} (.vNumber 7),
                      context := some 1, reference := .vObject 0 } 0
        [(Value.vString "x", Value.vNumber 1)]
      = ((objSet (objDelete [(Value.vString "x", Value.vNumber 1)] (.vString "x"))
            (.vString "x") (.vNumber 7)).1,
         .ok (objSet (objDelete [(Value.vString "x", Value.vNumber 1)] (.vString "x"))
            (.vString "x") (.vNumber 7)).2)
    ∧ objGet (setRunnerPhase2 { key := .vString "x", val := .externalCopy {} (.vNumber 7),
                                context := some 1, reference := .vObject 0 } 0
        [(Value.vString "x", Value.vNumber 1)]).1 (.vString "x") = some (.vNumber 7) :=
  (set_deletes_before_setting (ReferenceHandle.make 0 1 (.vObject 0)) (.vString "x")
    (.vNumber 7) {}
    { key := .vString "x", val := .externalCopy {} (.vNumber 7),
      context := some 1, reference := .vObject 0 } 0
    [(Value.vString "x", Value.vNumber 1)] rfl).2.1 (.vNumber 7) rfl

/-- C7 (amended): phase 1 accepts an arguments collection only when its own
property names form the dense index run 0..n-1, in which case each of the n
arguments is transferred out in index order under the arguments transfer
options; provided each argument's transfer-out succeeds, any gap or
non-index name fails phase 1 with the type error "Invalid `arguments`
array" (an argument whose transfer-out fails before the flaw is reached
raises its own error first; see the counterexample). -/
theorem apply_arguments_dense_validation (opts : TransferOptions)
    (args : List (Option Nat × Value)) :
    (∀ ts, externalizeArguments opts args 0 = .ok ts →
      denseFrom (args.map (fun p => p.1)) 0 = true
      ∧ ts.length = args.length
      ∧ ∀ j (hj : j < args.length) (ht : j < ts.length),
          ∃ v2, transferOutValue opts (args.get ⟨j, hj⟩).2 = .ok (ts.get ⟨j, ht⟩, v2))
    ∧ ((∀ p ∈ args, p.2 ≠ Value.vDerefUsed) →
        denseFrom (args.map (fun p => p.1)) 0 = false →
        externalizeArguments opts args 0 = .error (.typeError "Invalid `arguments` array"))
    ∧ (∀ (i ctx : Nat) (fnv : Value) (tmo : Nat) (retOpts : TransferOptions),
        applyPhase1 { isolate := some i, reference := some fnv, context := some ctx,
                      type_of := TypeOf.Function } none (some args) tmo opts retOpts
          = (externalizeArguments opts args 0).map (fun argv =>
              { argv := argv, context := some ctx, reference := fnv, recv := none,
                ret := none, timeout := tmo, didFinish := none,
                returnOptions := retOpts, asyncError := none })) := by
  refine ⟨fun ts h => externalizeArguments_ok opts args 0 ts h,
          fun hall hd => externalizeArguments_not_dense opts args 0 hall hd, ?_⟩
  intro i ctx fnv tmo retOpts
  simp only [applyPhase1, Option.getD]
  cases hx : externalizeArguments opts args 0 with
  | error e => simp [Except.map]
  | ok ts => simp [Except.map]

/-- C7 witness: a gap in the index run is rejected with the type error. -/
theorem apply_arguments_dense_validation_witness :
    externalizeArguments {} [(some 1, Value.vNull)] 0
      = .error (.typeError "Invalid `arguments` array") :=
  (apply_arguments_dense_validation {} [(some 1, Value.vNull)]).2.1 (by simp) (by decide)

/-- C7 counterexample: a collection with a non-index name where an earlier
argument is a consumed derefInto capsule: phase 1 fails with the one-shot
reuse error raised while transferring argument 0 out, before the flawed
name is examined — not the type error the claim requires for every gap or
non-index key. -/
theorem apply_arguments_transfer_preempts_counterexample :
    externalizeArguments {} [(some 0, Value.vDerefUsed), (none, Value.vNull)] 0
      = .error (.genericError "The return value of `derefInto()` should only be used once")
    ∧ denseFrom ([(some 0, Value.vDerefUsed), (none, Value.vNull)].map (fun p => p.1)) 0 = false
    ∧ JsError.genericError "The return value of `derefInto()` should only be used once"
      ≠ JsError.typeError "Invalid `arguments` array" :=
  ⟨rfl, by decide, by decide⟩

/-- C8: when the last share of a `ShareablePersistent` is dropped, the slot
is freed exactly once across both paths: if the disposal task can be
scheduled on the owning isolate's queue, nothing runs on the releasing
thread and the task runs the disposer (when present) with the live isolate
pointer, then resets and frees the slot; if scheduling fails because the
isolate is torn down, nothing is scheduled and the disposer (when present)
runs immediately on the releasing thread with a null isolate pointer,
followed by the free. -/
theorem shareable_persistent_single_disposal (hasDisposer scheduleOk : Bool) (iso : IsolateId) :
    countFreed ((shareablePersistentDtor hasDisposer scheduleOk iso).immediate
      ++ (shareablePersistentDtor hasDisposer scheduleOk iso).scheduled.getD []) = 1
    ∧ (scheduleOk = true →
        (shareablePersistentDtor hasDisposer scheduleOk iso).immediate = []
        ∧ (shareablePersistentDtor hasDisposer scheduleOk iso).scheduled
          = some ((if hasDisposer then [DisposeEvent.disposerRun (some iso)] else [])
              ++ [DisposeEvent.handleReset, DisposeEvent.handleFreed]))
    ∧ (scheduleOk = false →
        (shareablePersistentDtor hasDisposer scheduleOk iso).scheduled = none
        ∧ (shareablePersistentDtor hasDisposer scheduleOk iso).immediate
          = (if hasDisposer then [DisposeEvent.disposerRun none] else [])
              ++ [DisposeEvent.handleFreed]) := by
  cases hasDisposer <;> cases scheduleOk <;>
    refine ⟨rfl, ?_, ?_⟩ <;>
    first
      | (intro h; exact Bool.noConfusion h)
      | (intro h; exact ⟨rfl, rfl⟩)

/-- C8 witness: with a disposer present and scheduling possible, the slot
is freed exactly once. -/
theorem shareable_persistent_single_disposal_witness :
    countFreed ((shareablePersistentDtor true true 5).immediate
      ++ (shareablePersistentDtor true true 5).scheduled.getD []) = 1 :=
  (shareable_persistent_single_disposal true true 5).1

/-- C10: an applySyncPromise whose parsed `return` transfer options differ
from the default fails with the dedicated type error, and the check runs at
the start of phase 2, before the callability check and before the call (the
error fires for any stored state and any call outcome); phase 1 performs no
such check — it succeeds with arbitrary `return` options. -/
theorem applySyncPromise_return_options_rejected (st : ApplyRunnerState)
    (cur : IsolateId) (co : Except JsError Value)
    (h : st.returnOptions ≠ {}) :
    applyPhase2Async st cur co
      = .error (.typeError "`return` options are not available for `applySyncPromise`")
    ∧ ∀ (r : ReferenceHandle) (fnv : Value) (tmo : Nat) (aO rO : TransferOptions),
        r.reference = some fnv →
        applyPhase1 r none none tmo aO rO
          = .ok { argv := [], context := r.context, reference := fnv, recv := none,
                  ret := none, timeout := tmo, didFinish := none,
                  returnOptions := rO, asyncError := none } := by
  constructor
  · simp [applyPhase2Async, h]
  · intro r fnv tmo aO rO hr
    simp [applyPhase1, hr, externalizeArguments]

/-- C10 witness: non-default return options are rejected even when the
remote value is not callable, showing the check precedes the call. -/
theorem applySyncPromise_return_options_rejected_witness :
    applyPhase2Async { argv := [], context := some 0, reference := .vNumber 3, recv := none,
                       ret := none, timeout := 0, didFinish := none,
                       returnOptions := { kind := TransferKind.reference },
                       asyncError := none } 0 (.ok .vNull)
      = .error (.typeError "`return` options are not available for `applySyncPromise`") :=
  (applySyncPromise_return_options_rejected
    { argv := [], context := some 0, reference := .vNumber 3, recv := none,
      ret := none, timeout := 0, didFinish := none,
      returnOptions := { kind := TransferKind.reference }, asyncError := none }
    0 (.ok .vNull) (by decide)).1

/-- C2: for a promise-awaiting apply suspended on a promise (completion
flag allocated and false, no stored error), the flag is written exactly
once by whichever of the deadline and the settlement fires first: a
suspension leaves the flag freshly false; if the deadline fires first,
phase 3 sets the flag and raises the timeout error, and any settlement
arriving afterwards observes the set flag, stores nothing and wakes no one;
if the settlement fires first, it stores the outcome, sets the flag and
wakes the waiter, and phase 3 then delivers exactly the stored outcome:
the stored result is transferred in, a stored rejection is re-raised. -/
theorem promise_completion_flag_protocol (st : ApplyRunnerState) (cur : IsolateId)
    (hwait : st.didFinish = some false) (herr : st.asyncError = none) :
    (∀ st0 co st1, applyPhase2Async st0 cur co = .ok (true, st1) → st1.didFinish = some false)
    ∧ (applyPhase3 st cur
        = (.error (.genericError "Script execution timed out."), { st with didFinish := some true })
      ∧ ∀ s, asyncCallback { st with didFinish := some true } s
          = ({ st with didFinish := some true }, false))
    ∧ (∀ v t v2, transferOutValue {} v = .ok (t, v2) →
        asyncCallback st (.resolved v) = ({ st with ret := some t, didFinish := some true }, true)
        ∧ applyPhase3 { st with ret := some t, didFinish := some true } cur
            = (t.transferIn cur, { st with ret := some t, didFinish := some true }))
    ∧ (∀ e, asyncCallback st (.rejected e)
          = ({ st with asyncError := some (rejectionToError e), didFinish := some true }, true)
        ∧ applyPhase3 { st with asyncError := some (rejectionToError e), didFinish := some true } cur
            = (.error (.runtimeError (rejectionToError e)),
               { st with asyncError := some (rejectionToError e), didFinish := some true })) := by
  refine ⟨?_, ⟨?_, ?_⟩, ?_, ?_⟩
  · intro st0 co st1 h
    unfold applyPhase2Async at h
    repeat' split at h
    all_goals first
      | (simp only [Except.ok.injEq, Prod.mk.injEq] at h
         exact h.2 ▸ rfl)
      | simp_all
  · simp [applyPhase3, hwait]
  · intro s
    simp [asyncCallback]
  · intro v t v2 htr
    constructor
    · simp [asyncCallback, hwait, htr]
    · simp [applyPhase3, herr]
  · intro e
    constructor
    · simp [asyncCallback, hwait]
    · simp [applyPhase3, herr]

/-- C2 witness: at a concrete waiting state, a deadline-first phase 3
raises the timeout error and sets the flag. -/
theorem promise_completion_flag_protocol_witness :
    applyPhase3 { argv := [], context := some 0, reference := .vFunction 1, recv := none,
                  ret := none, timeout := 0, didFinish := some false,
                  returnOptions := {}, asyncError := none } 0
      = (.error (.genericError "Script execution timed out."),
         { argv := [], context := some 0, reference := .vFunction 1, recv := none,
           ret := none, timeout := 0, didFinish := some true,
           returnOptions := {}, asyncError := none }) :=
  (promise_completion_flag_protocol
    { argv := [], context := some 0, reference := .vFunction 1, recv := none,
      ret := none, timeout := 0, didFinish := some false,
      returnOptions := {}, asyncError := none } 0 rfl rfl).2.1.1
